import Mathlib

/-!
Verification development for the `github-webhook-notification` service
(sources: `src/main.rs`, `src/configure.rs`, `src/datastructures.rs`).

The Rust sources are shallowly embedded: strings are Lean `String`s, byte
sequences are `List Nat` (each element < 256), machine integers are `Nat`
with explicit reduction modulo 2^32 where the source relies on wrapping,
and the HTTP/channel plumbing is made explicit (a request is a record of
the headers and body chunks the handler reads; the mpsc channel is the
list of commands the handler produced, consumed by the worker function).

External crates appear as follows: `hmac`/`sha2` are embedded concretely
(the service's signature check depends on the actual digest), while
`serde_json::from_slice` is a parameter of the handler (the JSON decoder
is an external collaborator; theorems quantify over it or instantiate it
with concrete decoders).
-/

namespace Webhook

/-! ### Bytes, SHA-256 and HMAC (external `sha2`/`hmac` crates, embedded) -/

/-- UTF-8 encoding of one character, as byte values. -/
def utf8Bytes (c : Char) : List Nat :=
  let n := c.toNat
  if n < 128 then [n]
  else if n < 2048 then [192 + n / 64, 128 + n % 64]
  else if n < 65536 then [224 + n / 4096, 128 + (n / 64) % 64, 128 + n % 64]
  else [240 + n / 262144, 128 + (n / 4096) % 64, 128 + (n / 64) % 64, 128 + n % 64]

/-- The UTF-8 bytes of a string (Rust `str::as_bytes`). -/
def strBytes (s : String) : List Nat :=
  s.data.foldr (fun c acc => utf8Bytes c ++ acc) []

/-- Truncation to a 32-bit word. -/
def u32 (n : Nat) : Nat := n % 4294967296

/-- 32-bit right rotation. -/
def rotr (n x : Nat) : Nat := u32 ((x >>> n) ||| (x <<< (32 - n)))

def sigma0 (x : Nat) : Nat := rotr 7 x ^^^ rotr 18 x ^^^ (x >>> 3)

def sigma1 (x : Nat) : Nat := rotr 17 x ^^^ rotr 19 x ^^^ (x >>> 10)

def bigSigma0 (x : Nat) : Nat := rotr 2 x ^^^ rotr 13 x ^^^ rotr 22 x

def bigSigma1 (x : Nat) : Nat := rotr 6 x ^^^ rotr 11 x ^^^ rotr 25 x

/-- SHA-256 round constants. -/
def shaK : List Nat :=
  [1116352408, 1899447441, 3049323471, 3921009573, 961987163,
   1508970993, 2453635748, 2870763221, 3624381080, 310598401,
   607225278, 1426881987, 1925078388, 2162078206, 2614888103,
   3248222580, 3835390401, 4022224774, 264347078, 604807628,
   770255983, 1249150122, 1555081692, 1996064986, 2554220882,
   2821834349, 2952996808, 3210313671, 3336571891, 3584528711,
   113926993, 338241895, 666307205, 773529912, 1294757372,
   1396182291, 1695183700, 1986661051, 2177026350, 2456956037,
   2730485921, 2820302411, 3259730800, 3345764771, 3516065817,
   3600352804, 4094571909, 275423344, 430227734, 506948616,
   659060556, 883997877, 958139571, 1322822218, 1537002063,
   1747873779, 1955562222, 2024104815, 2227730452, 2361852424,
   2428436474, 2756734187, 3204031479, 3329325298]

/-- SHA-256 initial hash state. -/
def shaH0 : List Nat :=
  [1779033703, 3144134277, 1013904242, 2773480762,
   1359893119, 2600822924, 528734635, 1541459225]

/-- Big-endian byte rendering of `v` on `w` bytes. -/
def beBytes : Nat → Nat → List Nat
  | 0, _ => []
  | w + 1, v => (v >>> (8 * w)) % 256 :: beBytes w v

/-- Group bytes into big-endian 32-bit words. -/
def toWords : List Nat → List Nat
  | b0 :: b1 :: b2 :: b3 :: rest =>
      (b0 * 16777216 + b1 * 65536 + b2 * 256 + b3) :: toWords rest
  | _ => []

/-- Extend the 16 schedule words of a block to 64. -/
def extendSchedule (w : Array Nat) : Array Nat :=
  (List.range 48).foldl
    (fun w i =>
      w.push (u32 (w.get! i + sigma0 (w.get! (i + 1)) + w.get! (i + 9) +
        sigma1 (w.get! (i + 14)))))
    w

/-- One SHA-256 compression round. -/
def compressStep (st : Nat × Nat × Nat × Nat × Nat × Nat × Nat × Nat)
    (kw : Nat × Nat) : Nat × Nat × Nat × Nat × Nat × Nat × Nat × Nat :=
  let (a, b, c, d, e, f, g, h) := st
  let ch := (e &&& f) ^^^ ((4294967295 ^^^ e) &&& g)
  let maj := (a &&& b) ^^^ (a &&& c) ^^^ (b &&& c)
  let t1 := u32 (h + bigSigma1 e + ch + kw.1 + kw.2)
  let t2 := u32 (bigSigma0 a + maj)
  (u32 (t1 + t2), a, b, c, u32 (d + t1), e, f, g)

/-- SHA-256 compression of one 64-byte block into the running state. -/
def compress (st : List Nat) (block : List Nat) : List Nat :=
  let ws := (extendSchedule (toWords block).toArray).toList
  match st with
  | [a, b, c, d, e, f, g, h] =>
      let (a1, b1, c1, d1, e1, f1, g1, h1) :=
        (shaK.zip ws).foldl compressStep (a, b, c, d, e, f, g, h)
      [u32 (a + a1), u32 (b + b1), u32 (c + c1), u32 (d + d1),
       u32 (e + e1), u32 (f + f1), u32 (g + g1), u32 (h + h1)]
  | other => other

/-- SHA-256 padding: `0x80`, zeros to 56 mod 64, then the 64-bit bit length. -/
def padMessage (m : List Nat) : List Nat :=
  let L := m.length
  m ++ [128] ++ List.replicate ((119 - L % 64) % 64) 0 ++ beBytes 8 (8 * L)

/-- Split a byte list into 64-byte blocks (fuelled for structural recursion). -/
def splitBlocksAux : Nat → List Nat → List (List Nat)
  | 0, _ => []
  | _, [] => []
  | fuel + 1, l => l.take 64 :: splitBlocksAux fuel (l.drop 64)

def splitBlocks (l : List Nat) : List (List Nat) :=
  splitBlocksAux (l.length + 1) l

/-- SHA-256 digest (32 bytes) of a byte sequence. -/
def sha256 (m : List Nat) : List Nat :=
  ((splitBlocks (padMessage m)).foldl compress shaH0).foldr
    (fun w acc => beBytes 4 w ++ acc) []

/-- HMAC-SHA256 (the `Hmac<Sha256>` used by `route_post`). -/
def hmacSha256 (key msg : List Nat) : List Nat :=
  let k0 := if key.length > 64 then sha256 key else key
  let k := k0 ++ List.replicate (64 - k0.length) 0
  sha256 (k.map (fun b => b ^^^ 0x5c) ++
    sha256 (k.map (fun b => b ^^^ 0x36) ++ msg))

/-- Lowercasing of one character (Rust `to_lowercase` restricted to the
ASCII range; every string lowercased by the service is ASCII). -/
def charToLower (c : Char) : Char :=
  if 65 <= c.toNat && c.toNat <= 90 then Char.ofNat (c.toNat + 32) else c

/-- Lowercasing of a string (Rust `str::to_lowercase` on ASCII data). -/
def strToLower (s : String) : String := String.mk (s.data.map charToLower)

/-- Lowercase hex digit. -/
def hexDigit (n : Nat) : Char :=
  if n < 10 then Char.ofNat (48 + n) else Char.ofNat (87 + n)

/-- Lowercase hex rendering of bytes (Rust `format` with the `x` spec). -/
def hexStr (bs : List Nat) : String :=
  String.mk (bs.foldr (fun b acc => hexDigit (b / 16) :: hexDigit (b % 16) :: acc) [])

/-! ### Configuration (configure.rs) -/

namespace Configure

/-- Resolved per-repository configuration (configure.rs `Repository`). -/
structure Repository where
  send_to : List Int
  branch_ignore : List String
  secrets : String
deriving DecidableEq

/-- Builder for `Repository`; `Default` gives empty lists and strings. -/
structure RepositoryBuilder where
  send_to : List Int := []
  branch_ignore : List String := []
  secrets : String := ""
deriving DecidableEq

def RepositoryBuilder.new : RepositoryBuilder := {}

def RepositoryBuilder.set_send_to (b : RepositoryBuilder) (send_to : List Int) :
    RepositoryBuilder :=
  { b with send_to := send_to }

def RepositoryBuilder.set_secrets (b : RepositoryBuilder) (secrets : String) :
    RepositoryBuilder :=
  { b with secrets := secrets }

def RepositoryBuilder.build (b : RepositoryBuilder) : Repository :=
  { send_to := b.send_to, branch_ignore := b.branch_ignore, secrets := b.secrets }

/-- Resolved `[server]` section (configure.rs `Server`): missing `secrets`
or `token` become the empty string. -/
structure Server where
  bind : String
  secrets : String
  token : String
deriving DecidableEq

/-- Resolved `[telegram]` section (configure.rs `Telegram`). -/
structure Telegram where
  bot_token : String
  api_server : Option String
  send_to : List Int
deriving DecidableEq

/-- Resolved configuration (configure.rs `Config`); the repository table
built by `convert_hashmap` is modelled as an association list. -/
structure Config where
  server : Server
  telegram : Telegram
  repo_mapping : List (String × Repository)
deriving DecidableEq

/-- Lookup in the repository table (Rust `HashMap::get`), modelled as
first-match lookup in the association list. -/
def lookupRepo (m : List (String × Repository)) (name : String) : Option Repository :=
  (m.find? (fun p => p.1 == name)).map (fun p => p.2)

/-- Translation of `Config::fetch_repository_configure` (the parameter is
called `branch_name` in the source although it is a repository full name). -/
def Config.fetch_repository_configure (c : Config) (branch_name : String) : Repository :=
  match lookupRepo c.repo_mapping branch_name with
  | none =>
      (((RepositoryBuilder.new).set_send_to c.telegram.send_to).set_secrets
        c.server.secrets).build
  | some repository => repository

end Configure

/-! ### Event data structures (datastructures.rs) -/

namespace Datastructures

structure Commit where
  id : String
  message : String
  url : String
deriving DecidableEq

/-- The repository object inside an event payload (datastructures.rs
`Repository`; only `full_name` is consumed). -/
structure Repository where
  full_name : String
deriving DecidableEq

structure GitHubPingEvent where
  zen : String
deriving DecidableEq

/-- A push event payload; `remote_ref` is the JSON field `ref`. -/
structure GitHubPushEvent where
  remote_ref : String
  after : String
  before : String
  commits : List Commit
  compare : String
  repository : Repository
deriving DecidableEq

/-- Characters strictly before the first occurrence of `c`, or `none` when
`c` does not occur. -/
def charsBeforeSep (c : Char) : List Char → Option (List Char)
  | [] => none
  | x :: rest =>
      if x = c then some [] else (charsBeforeSep c rest).map (fun l => x :: l)

/-- Suffix of `s` after the last occurrence of `c`; this is the second
component of Rust `str::rsplit_once`. -/
def rsplitSuffix (s : String) (c : Char) : Option String :=
  (charsBeforeSep c s.data.reverse).map (fun l => String.mk l.reverse)

/-- Translation of `GitHubPushEvent::branch_name`: the suffix of the ref
after the last `/`. The source unwraps `rsplit_once` and panics when the
ref has no separator; the model totalises that case to the empty string
(no claim exercises it). -/
def GitHubPushEvent.branch_name (e : GitHubPushEvent) : String :=
  (rsplitSuffix e.remote_ref '/').getD ""

/-- Translation of `Commit::display`. The source slices the commit id to
its first 8 bytes (panicking on shorter ids); the model truncates. -/
def Commit.display (c : Commit) (title_only : Bool) : String :=
  let content :=
    if title_only then
      if c.message.contains '\n' then (c.message.splitOn "\n").headD ""
      else c.message
    else c.message
  "<a href=\"" ++ c.url ++ "\">" ++ c.id.take 8 ++ "</a>: " ++ content

/-- The `Display` rendering of a push event: the message text handed to
the messaging backend. -/
def GitHubPushEvent.toDisplayString (e : GitHubPushEvent) : String :=
  let git_ref := e.repository.full_name ++ ":" ++ e.branch_name
  if e.commits.length = 1 then
    let item := e.commits.headD { id := "", message := "", url := "" }
    "🔨 <a href=\"" ++ item.url ++ "\">1 new commit</a> <b>to " ++ git_ref ++
      "</b>:\n\n" ++ item.display false
  else
    "🔨 <a href=\"" ++ e.compare ++ "\">" ++ toString e.commits.length ++
      " new commits</a> <b>to " ++ git_ref ++ "</b>:\n\n" ++
      String.intercalate "\n" (e.commits.map (fun x => x.display true))

end Datastructures

/-! ### HTTP handler and delivery worker (main.rs) -/

namespace Main

open Datastructures

/-- Commands on the bot mpsc channel (main.rs `Command`). -/
inductive Command
  | Terminate
  | Data (event : GitHubPushEvent)
  | Bundle (receiver : List Int) (text : String)
deriving DecidableEq

/-- Translation of `check_0`: true when every character of the string is
the zero character. -/
def check_0 (s : String) : Bool :=
  s.data.all (fun x => x == '0')

/-- An inbound POST request as `route_post` observes it: the two headers
it reads and the stream of payload chunks. -/
structure Request where
  signature_header : Option String
  event_header : Option String
  body_chunks : List (List Nat)
deriving DecidableEq

/-- The responses `route_post` can produce. `json` models
`Response::reason` bodies (`new_ok` is status 200 with empty reason);
`serdeError` models a `serde_json` parse error propagated with `?`. -/
inductive HttpResp
  | json (status : Nat) (reason : String)
  | noContent
  | internalServerError
  | serdeError (msg : String)
deriving DecidableEq

def statusOf : HttpResp → Nat
  | .json s _ => s
  | .noContent => 204
  | .internalServerError => 500
  | .serdeError _ => 500

/-- Body-capture loop of `route_post`: accumulate chunks, rejecting once
the accumulated size would exceed 262,144 bytes. -/
def readBodyAux (body : List Nat) : List (List Nat) → Option (List Nat)
  | [] => some body
  | chunk :: rest =>
      if body.length + chunk.length > 262144 then none
      else readBodyAux (body ++ chunk) rest

def readBody (chunks : List (List Nat)) : Option (List Nat) :=
  readBodyAux [] chunks

/-- Total size of a chunk stream. -/
def sumLen (chunks : List (List Nat)) : Nat :=
  (chunks.map List.length).sum

/-- Signature string computed by `route_post`: lowercase hex HMAC-SHA256
of the raw body keyed by the secret, tagged with the algorithm name, then
lowercased again as in the source. -/
def expectedSignature (secrets : String) (body : List Nat) : String :=
  strToLower ("sha256=" ++ hexStr (hmacSha256 (strBytes secrets) body))

/-- Rust Debug rendering of a header value: quotes around it (escape
sequences omitted; header values in scope are plain ASCII). -/
def rustDebug (s : String) : String := "\"" ++ s ++ "\""

/-- Event dispatch: the tail of `route_post` after signature verification,
parameterised by the external JSON decoders. Returns the response and the
commands sent on the bot channel. -/
def handle_event (parsePing : List Nat → Except String GitHubPingEvent)
    (parsePush : List Nat → Except String GitHubPushEvent)
    (event_header : Option String) (body : List Nat) : HttpResp × List Command :=
  match event_header with
  | none => (.internalServerError, [])
  | some event =>
    if event = "ping" then
      match parsePing body with
      | .ok request_body => (.json 200 request_body.zen, [])
      | .error e => (.serdeError e, [])
    else if event = "push" then
      match parsePush body with
      | .ok request_body =>
          if check_0 request_body.after || check_0 request_body.before then
            (.noContent, [])
          else (.json 200 "", [.Data request_body])
      | .error e => (.serdeError e, [])
    else (.json 400 ("Unsupported event type " ++ rustDebug event), [])

/-- Translation of `route_post`: body capture with the overflow bound,
signature verification keyed by `configure.server().secrets()`, then
event dispatch. -/
def route_post (parsePing : List Nat → Except String GitHubPingEvent)
    (parsePush : List Nat → Except String GitHubPushEvent)
    (configure : Configure.Config) (request : Request) : HttpResp × List Command :=
  match readBody request.body_chunks with
  | none => (.json 400 "overflow", [])
  | some body =>
    let secrets := configure.server.secrets
    if secrets = "" then handle_event parsePing parsePush request.event_header body
    else
      let sha256val := expectedSignature secrets body
      match request.signature_header with
      | some val =>
          if sha256val = val then
            handle_event parsePing parsePush request.event_header body
          else (.json 403 "Checksum error", [])
      | none => (.json 403 "Checksum header not found", [])

/-- Modelled from the spec: the handler that sections 4.2, 4.3 and 4.1
describe, in which the repository full name is early-parsed from the body
(`earlyParse` stands for the external first-pass JSON decode), the
repository entry is resolved, and verification is keyed by the resolved
secret. This behaviour is absent from `route_post` in the source; the
definition exists only to compare the handler against the spec. -/
def route_post_spec_resolved (earlyParse : List Nat → Option String)
    (parsePing : List Nat → Except String GitHubPingEvent)
    (parsePush : List Nat → Except String GitHubPushEvent)
    (configure : Configure.Config) (request : Request) : HttpResp × List Command :=
  match readBody request.body_chunks with
  | none => (.json 400 "overflow", [])
  | some body =>
    let secrets :=
      match earlyParse body with
      | some full_name => (configure.fetch_repository_configure full_name).secrets
      | none => configure.server.secrets
    if secrets = "" then handle_event parsePing parsePush request.event_header body
    else
      let sha256val := expectedSignature secrets body
      match request.signature_header with
      | some val =>
          if sha256val = val then
            handle_event parsePing parsePush request.event_header body
          else (.json 403 "Checksum error", [])
      | none => (.json 403 "Checksum header not found", [])

/-- Destination list used by the worker for a configured repository: the
entry's own list, or the global receiver list when the entry's list is
empty (the inline `if` in the `Command::Data` arm). -/
def effectiveTarget (receiver : List Int) (repository : Configure.Repository) :
    List Int :=
  if repository.send_to = [] then receiver else repository.send_to

/-- Sends performed for one `Command::Data` as (chat id, text) pairs:
branch-ignore filtering, destination fallback, then one send per target. -/
def sendsForData (receiver : List Int)
    (specify_configures : List (String × Configure.Repository))
    (event : GitHubPushEvent) : List (Int × String) :=
  match Configure.lookupRepo specify_configures event.repository.full_name with
  | some repository =>
      if repository.branch_ignore.contains event.branch_name then []
      else (effectiveTarget receiver repository).map
        (fun send_to => (send_to, event.toDisplayString))
  | none => receiver.map (fun send_to => (send_to, event.toDisplayString))

/-- Main consumption loop of `process_send_message` (non-empty bot token):
the sends performed, in order, and the commands left unconsumed in the
channel when the loop exits. -/
def workerLoop (receiver : List Int)
    (specify_configures : List (String × Configure.Repository)) :
    List Command → List (Int × String) × List Command
  | [] => ([], [])
  | .Terminate :: rest => ([], rest)
  | .Data event :: rest =>
      let r := workerLoop receiver specify_configures rest
      (sendsForData receiver specify_configures event ++ r.1, r.2)
  | .Bundle rcv text :: rest =>
      let r := workerLoop receiver specify_configures rest
      (rcv.map (fun send_to => (send_to, text)) ++ r.1, r.2)

/-- Consumption loop of `process_send_message` when the bot token is
empty: discard every command until a `Terminate` arrives or the channel
closes, sending nothing. -/
def emptyTokenLoop : List Command → List Command
  | [] => []
  | .Terminate :: rest => rest
  | _ :: rest => emptyTokenLoop rest

/-- Translation of `process_send_message` on a finite channel trace:
returns the (chat id, text) sends performed and the commands never
consumed. The source returns `Ok(())` on every path modelled here. -/
def process_send_message (bot_token : String) (receiver : List Int)
    (specify_configures : List (String × Configure.Repository))
    (cmds : List Command) : List (Int × String) × List Command :=
  if bot_token = "" then ([], emptyTokenLoop cmds)
  else workerLoop receiver specify_configures cmds

end Main

/-! ### Worker-trace helpers -/

namespace Main

def isTerminate : Command → Bool
  | .Terminate => true
  | _ => false

/-- Commands strictly after the first `Terminate` of a trace (everything a
worker that stops at the first `Terminate` leaves unconsumed); the whole
trace consumed when no `Terminate` occurs. -/
def afterFirstTerminate (cmds : List Command) : List Command :=
  match cmds.dropWhile (fun c => !isTerminate c) with
  | [] => []
  | _ :: rest => rest

end Main

/-! ### Concrete fixtures for witnesses and counterexamples -/

def commitA : Datastructures.Commit :=
  { id := "0123456789abcdef", message := "fix things", url := "https://example.com/c" }

def pushEventA : Datastructures.GitHubPushEvent :=
  { remote_ref := "refs/heads/main", after := "abc123", before := "def456",
    commits := [commitA], compare := "https://example.com/compare",
    repository := { full_name := "org/repo" } }

def parsePushA : List Nat → Except String Datastructures.GitHubPushEvent :=
  fun _ => .ok pushEventA

def parsePingFail : List Nat → Except String Datastructures.GitHubPingEvent :=
  fun _ => .error "no ping"

def telegramA : Configure.Telegram :=
  { bot_token := "bt", api_server := none, send_to := [42] }

def cfgC1 : Configure.Config :=
  { server := { bind := "127.0.0.1:8080", secrets := "", token := "" },
    telegram := telegramA,
    repo_mapping := [("org/repo",
      { send_to := [111], branch_ignore := [], secrets := "r" })] }

def reqC1 : Main.Request :=
  { signature_header := none, event_header := some "push", body_chunks := [[1, 2, 3]] }

def earlyParseA : List Nat → Option String := fun _ => some "org/repo"

def repoC2 : Configure.Repository :=
  { send_to := [111], branch_ignore := ["main"], secrets := "" }

def cfgC2 : Configure.Config :=
  { server := { bind := "127.0.0.1:8080", secrets := "", token := "" },
    telegram := telegramA, repo_mapping := [("org/repo", repoC2)] }

def cfgC3 : Configure.Config :=
  { server := { bind := "127.0.0.1:8080", secrets := "sec", token := "" },
    telegram := telegramA, repo_mapping := [] }

def reqC3 : Main.Request :=
  { signature_header := none, event_header := some "push", body_chunks := [] }

def cfgC4 : Configure.Config :=
  { server := { bind := "127.0.0.1:8080", secrets := "topsecret", token := "" },
    telegram := telegramA, repo_mapping := [] }

def bodyC4 : List Nat := strBytes "hello"

def hdrUpperC4 : String :=
  "sha256=ED76FD36523B8BECDA5A3B36D0E3737E8AE5111F55E26C7C3A455A3CE29636D2"

def hdrLowerC4 : String :=
  "sha256=ed76fd36523b8becda5a3b36d0e3737e8ae5111f55e26c7c3a455a3ce29636d2"

def reqC4upper : Main.Request :=
  { signature_header := some hdrUpperC4, event_header := some "push",
    body_chunks := [bodyC4] }

def reqC4lower : Main.Request :=
  { signature_header := some hdrLowerC4, event_header := some "push",
    body_chunks := [bodyC4] }

def pushEventZeroAfter : Datastructures.GitHubPushEvent :=
  { remote_ref := "refs/heads/main",
    after := "0000000000000000000000000000000000000000", before := "def456",
    commits := [commitA], compare := "https://example.com/compare",
    repository := { full_name := "org/repo" } }

def parsePushZeroAfter : List Nat → Except String Datastructures.GitHubPushEvent :=
  fun _ => .ok pushEventZeroAfter

def reqC5 : Main.Request :=
  { signature_header := none, event_header := some "push", body_chunks := [] }

def pushEventEmptyBefore : Datastructures.GitHubPushEvent :=
  { remote_ref := "refs/heads/main", after := "abc123", before := "",
    commits := [commitA], compare := "https://example.com/compare",
    repository := { full_name := "org/repo" } }

def parsePushEmptyBefore : List Nat → Except String Datastructures.GitHubPushEvent :=
  fun _ => .ok pushEventEmptyBefore

def reqOverflow : Main.Request :=
  { signature_header := none, event_header := some "push",
    body_chunks := [List.replicate 262145 0] }

def repoC8 : Configure.Repository :=
  { send_to := [], branch_ignore := [], secrets := "s8" }

def cfgC8 : Configure.Config :=
  { server := { bind := "b", secrets := "gs", token := "" },
    telegram := telegramA, repo_mapping := [("org/repo", repoC8)] }

/-! ### Claim theorems -/

/-- C7: a repository full name absent from the repository table resolves to
exactly the global defaults: the global destination chat-id list, the
global secret, and an empty branch-ignore list. -/
theorem c7_miss_returns_global_defaults (cfg : Configure.Config) (name : String)
    (h : Configure.lookupRepo cfg.repo_mapping name = none) :
    cfg.fetch_repository_configure name =
      { send_to := cfg.telegram.send_to, branch_ignore := [],
        secrets := cfg.server.secrets } := by
  unfold Configure.Config.fetch_repository_configure
  rw [h]
  rfl

theorem c7_witness :
    cfgC1.fetch_repository_configure "absent/name" =
      { send_to := [42], branch_ignore := [], secrets := "" } :=
  c7_miss_returns_global_defaults cfgC1 "absent/name" (by decide)

/-- C8: an entry present in the table with an empty destination list keeps
its own secret under resolution, while the worker falls back to the global
destination list when delivering for that repository. -/
theorem c8_empty_send_to_falls_back (cfg : Configure.Config) (name : String)
    (repo : Configure.Repository) (e : Datastructures.GitHubPushEvent)
    (h1 : Configure.lookupRepo cfg.repo_mapping name = some repo)
    (h2 : repo.send_to = [])
    (h3 : e.repository.full_name = name)
    (h4 : repo.branch_ignore.contains e.branch_name = false) :
    cfg.fetch_repository_configure name = repo ∧
    (cfg.fetch_repository_configure name).secrets = repo.secrets ∧
    Main.effectiveTarget cfg.telegram.send_to repo = cfg.telegram.send_to ∧
    Main.sendsForData cfg.telegram.send_to cfg.repo_mapping e =
      cfg.telegram.send_to.map (fun t => (t, e.toDisplayString)) := by
  have hf : cfg.fetch_repository_configure name = repo := by
    unfold Configure.Config.fetch_repository_configure
    rw [h1]
  have ht : Main.effectiveTarget cfg.telegram.send_to repo = cfg.telegram.send_to := by
    unfold Main.effectiveTarget
    rw [h2]
    simp
  refine ⟨hf, by rw [hf], ht, ?_⟩
  have h4m : e.branch_name ∉ repo.branch_ignore := by simpa using h4
  unfold Main.sendsForData
  rw [h3, h1]
  simp [h4m, ht]

theorem c8_witness :
    cfgC8.fetch_repository_configure "org/repo" = repoC8 ∧
    (cfgC8.fetch_repository_configure "org/repo").secrets = repoC8.secrets ∧
    Main.effectiveTarget cfgC8.telegram.send_to repoC8 = cfgC8.telegram.send_to ∧
    Main.sendsForData cfgC8.telegram.send_to cfgC8.repo_mapping pushEventA =
      cfgC8.telegram.send_to.map (fun t => (t, pushEventA.toDisplayString)) :=
  c8_empty_send_to_falls_back cfgC8 "org/repo" repoC8 pushEventA (by decide) rfl rfl
    (by decide)

/-- C9: with an empty bot credential the worker sends nothing, discarding
every command, and exits exactly at the first `Terminate` (or when the
channel closes), leaving precisely the post-`Terminate` commands
unconsumed. -/
theorem c9_empty_token_discards_until_terminate (receiver : List Int)
    (specify : List (String × Configure.Repository)) (cmds : List Main.Command) :
    Main.process_send_message "" receiver specify cmds =
      ([], Main.afterFirstTerminate cmds) := by
  have h : ∀ l : List Main.Command, Main.emptyTokenLoop l = Main.afterFirstTerminate l := by
    intro l
    induction l with
    | nil => rfl
    | cons c rest ih =>
      cases c with
      | Terminate => rfl
      | Data e =>
        simpa [Main.emptyTokenLoop, Main.afterFirstTerminate, Main.isTerminate,
          List.dropWhile] using ih
      | Bundle r t =>
        simpa [Main.emptyTokenLoop, Main.afterFirstTerminate, Main.isTerminate,
          List.dropWhile] using ih
  simp [Main.process_send_message, h]

/-- C10: the all-zero-hash predicate is vacuously true on the empty string,
so a push event whose before field is empty (and whose after hash is not
all zeros) still takes the zero-hash short-circuit: no-content response,
no command enqueued. -/
theorem c10_empty_string_hash_short_circuits :
    Main.check_0 "" = true ∧
    pushEventEmptyBefore.before = "" ∧
    Main.check_0 pushEventEmptyBefore.after = false ∧
    Main.route_post parsePingFail parsePushEmptyBefore cfgC1 reqC1 =
      (.noContent, []) := by
  refine ⟨rfl, rfl, by decide, by decide⟩

/-- C1, corrected: signature verification in `route_post` is keyed by the
global server secret unconditionally; the handler's response and enqueued
commands do not depend on the repository table at all, so the resolved
per-repository secret is never consulted. -/
theorem c1_verification_ignores_repo_table
    (pp : List Nat → Except String Datastructures.GitHubPingEvent)
    (pq : List Nat → Except String Datastructures.GitHubPushEvent)
    (server : Configure.Server) (telegram : Configure.Telegram)
    (m1 m2 : List (String × Configure.Repository)) (req : Main.Request) :
    Main.route_post pp pq { server := server, telegram := telegram, repo_mapping := m1 } req =
      Main.route_post pp pq { server := server, telegram := telegram, repo_mapping := m2 } req :=
  rfl

/-- C1, counterexample: with an empty global secret and a repository entry
carrying its own non-empty secret, the handler accepts an unsigned push for
that repository, whereas the spec-resolved variant (keyed by the
repository's secret) rejects it for the missing signature header. -/
theorem c1_counterexample :
    cfgC1.server.secrets = "" ∧
    (cfgC1.fetch_repository_configure "org/repo").secrets = "r" ∧
    Main.route_post parsePingFail parsePushA cfgC1 reqC1 =
      (.json 200 "", [.Data pushEventA]) ∧
    Main.route_post_spec_resolved earlyParseA parsePingFail parsePushA cfgC1 reqC1 =
      (.json 403 "Checksum header not found", []) := by
  refine ⟨rfl, by decide, by decide, by decide⟩

/-- C2, corrected: a push event on a branch listed in the repository
entry's ignore list is answered 200 (ok) and a `Data` delivery command is
enqueued; the filtering happens in the delivery worker, which drops the
command without sending to any chat. -/
theorem c2_ignored_branch_filtered_in_worker
    (pp : List Nat → Except String Datastructures.GitHubPingEvent)
    (pq : List Nat → Except String Datastructures.GitHubPushEvent)
    (cfg : Configure.Config) (req : Main.Request) (body : List Nat)
    (e : Datastructures.GitHubPushEvent) (repo : Configure.Repository)
    (bot_token : String)
    (h1 : Main.readBody req.body_chunks = some body)
    (h2 : cfg.server.secrets = "")
    (h3 : req.event_header = some "push")
    (h4 : pq body = .ok e)
    (h5 : Main.check_0 e.after = false)
    (h6 : Main.check_0 e.before = false)
    (h7 : Configure.lookupRepo cfg.repo_mapping e.repository.full_name = some repo)
    (h8 : repo.branch_ignore.contains e.branch_name = true) :
    Main.route_post pp pq cfg req = (.json 200 "", [.Data e]) ∧
    Main.process_send_message bot_token cfg.telegram.send_to cfg.repo_mapping
      [.Data e] = ([], []) := by
  constructor
  · simp [Main.route_post, h1, h2, Main.handle_event, h3, h4, h5, h6]
  · have h8m : e.branch_name ∈ repo.branch_ignore := by simpa using h8
    unfold Main.process_send_message
    by_cases hb : bot_token = ""
    · simp [hb, Main.emptyTokenLoop]
    · simp [hb, Main.workerLoop, Main.sendsForData, h7, h8m]

/-- C2, counterexample: for a concrete push to an ignored branch the
handler's status is 200 (not 204) and the command list is non-empty. -/
theorem c2_counterexample :
    Configure.lookupRepo cfgC2.repo_mapping pushEventA.repository.full_name =
      some repoC2 ∧
    repoC2.branch_ignore.contains pushEventA.branch_name = true ∧
    Main.route_post parsePingFail parsePushA cfgC2 reqC1 =
      (.json 200 "", [.Data pushEventA]) ∧
    Main.statusOf (Main.route_post parsePingFail parsePushA cfgC2 reqC1).1 ≠ 204 ∧
    (Main.route_post parsePingFail parsePushA cfgC2 reqC1).2 ≠ [] := by
  refine ⟨by decide, by decide, by decide, by decide, by decide⟩

theorem c2_witness :
    Main.route_post parsePingFail parsePushA cfgC2 reqC1 =
      (.json 200 "", [.Data pushEventA]) ∧
    Main.process_send_message "bt" cfgC2.telegram.send_to cfgC2.repo_mapping
      [.Data pushEventA] = ([], []) :=
  c2_ignored_branch_filtered_in_worker parsePingFail parsePushA cfgC2 reqC1 [1, 2, 3]
    pushEventA repoC2 "bt" rfl rfl rfl rfl (by decide) (by decide) (by decide) (by decide)

/-- C3, amended: with a non-empty global secret and no signature header,
the handler rejects with 403 and the reason string "Checksum header not
found" (not "signature header missing"), enqueueing nothing. -/
theorem c3_missing_header_rejected
    (pp : List Nat → Except String Datastructures.GitHubPingEvent)
    (pq : List Nat → Except String Datastructures.GitHubPushEvent)
    (cfg : Configure.Config) (req : Main.Request) (body : List Nat)
    (h1 : Main.readBody req.body_chunks = some body)
    (h2 : cfg.server.secrets ≠ "")
    (h3 : req.signature_header = none) :
    Main.route_post pp pq cfg req = (.json 403 "Checksum header not found", []) := by
  simp [Main.route_post, h1, h2, h3]

/-- C3, counterexample: the rejection carries the reason string of the
source, which is not the reason string the claim names. -/
theorem c3_counterexample :
    Main.route_post parsePingFail parsePushA cfgC3 reqC3 =
      (.json 403 "Checksum header not found", []) ∧
    "Checksum header not found" ≠ "signature header missing" := by
  refine ⟨by decide, by decide⟩

theorem c3_witness :
    Main.route_post parsePingFail parsePushA cfgC3 reqC3 =
      (.json 403 "Checksum header not found", []) :=
  c3_missing_header_rejected parsePingFail parsePushA cfgC3 reqC3 [] rfl (by decide) rfl

/-- C5: a push event whose before or after hash is all zero characters is
answered with the empty no-content response and no command is enqueued,
whatever the branch, the repository table and the ignore lists. -/
theorem c5_zero_hash_short_circuit
    (pp : List Nat → Except String Datastructures.GitHubPingEvent)
    (pq : List Nat → Except String Datastructures.GitHubPushEvent)
    (cfg : Configure.Config) (req : Main.Request) (body : List Nat)
    (e : Datastructures.GitHubPushEvent)
    (h1 : Main.readBody req.body_chunks = some body)
    (h2 : cfg.server.secrets = "" ∨
      req.signature_header = some (Main.expectedSignature cfg.server.secrets body))
    (h3 : req.event_header = some "push")
    (h4 : pq body = .ok e)
    (h5 : Main.check_0 e.after = true ∨ Main.check_0 e.before = true) :
    Main.route_post pp pq cfg req = (.noContent, []) := by
  have hd : Main.handle_event pp pq req.event_header body = (.noContent, []) := by
    rcases h5 with h5 | h5 <;> simp [Main.handle_event, h3, h4, h5]
  rcases h2 with h2 | h2
  · simp [Main.route_post, h1, h2, hd]
  · by_cases hsec : cfg.server.secrets = ""
    · simp [Main.route_post, h1, hsec, hd]
    · simp [Main.route_post, h1, hsec, h2, hd]

theorem c5_witness :
    Main.route_post parsePingFail parsePushZeroAfter cfgC1 reqC5 = (.noContent, []) :=
  c5_zero_hash_short_circuit parsePingFail parsePushZeroAfter cfgC1 reqC5 []
    pushEventZeroAfter rfl (Or.inl rfl) rfl rfl (Or.inl (by decide))

/-- Body capture succeeds, returning the concatenated chunks, whenever the
accumulator plus the remaining total stays within the bound. -/
theorem readBodyAux_ok (chunks : List (List Nat)) :
    ∀ acc : List Nat, acc.length + Main.sumLen chunks ≤ 262144 →
      Main.readBodyAux acc chunks = some (acc ++ chunks.flatten) := by
  induction chunks with
  | nil => intro acc h; simp [Main.readBodyAux]
  | cons c rest ih =>
    intro acc h
    have hs : Main.sumLen (c :: rest) = c.length + Main.sumLen rest := by
      simp [Main.sumLen]
    rw [hs] at h
    unfold Main.readBodyAux
    rw [if_neg (by omega)]
    rw [ih (acc ++ c) (by simp; omega)]
    simp

/-- Body capture fails whenever the accumulator plus the remaining total
exceeds the bound. -/
theorem readBodyAux_overflow (chunks : List (List Nat)) :
    ∀ acc : List Nat, acc.length ≤ 262144 →
      262144 < acc.length + Main.sumLen chunks →
      Main.readBodyAux acc chunks = none := by
  induction chunks with
  | nil =>
    intro acc h1 h2
    exfalso
    simp [Main.sumLen] at h2
    omega
  | cons c rest ih =>
    intro acc h1 h2
    have hs : Main.sumLen (c :: rest) = c.length + Main.sumLen rest := by
      simp [Main.sumLen]
    rw [hs] at h2
    unfold Main.readBodyAux
    by_cases hc : acc.length + c.length > 262144
    · rw [if_pos hc]
    · rw [if_neg hc]
      exact ih (acc ++ c) (by simp; omega) (by simp; omega)

/-- Body capture fails at the first chunk that would push the accumulated
size over the bound, whatever follows that chunk. -/
theorem readBodyAux_stops_at_chunk (pre : List (List Nat)) :
    ∀ (acc chunk : List Nat) (rest : List (List Nat)),
      acc.length + Main.sumLen pre ≤ 262144 →
      262144 < acc.length + Main.sumLen pre + chunk.length →
      Main.readBodyAux acc (pre ++ chunk :: rest) = none := by
  induction pre with
  | nil =>
    intro acc chunk rest h1 h2
    simp [Main.sumLen] at h1 h2
    rw [List.nil_append]
    unfold Main.readBodyAux
    rw [if_pos (by omega)]
  | cons p ps ih =>
    intro acc chunk rest h1 h2
    have hs : Main.sumLen (p :: ps) = p.length + Main.sumLen ps := by
      simp [Main.sumLen]
    rw [hs] at h1 h2
    rw [List.cons_append]
    unfold Main.readBodyAux
    rw [if_neg (by omega)]
    exact ih (acc ++ p) chunk rest (by simp; omega) (by simp; omega)

/-- C6: the handler rejects with 400 and reason "overflow" exactly on
oversized bodies: any chunk stream totalling more than 262,144 bytes is
rejected; a stream totalling at most 262,144 bytes is fully captured and
never rejected for size; and reading stops at the first chunk that would
exceed the bound, regardless of what follows it. -/
theorem c6_overflow_bound :
    (∀ (pp : List Nat → Except String Datastructures.GitHubPingEvent)
        (pq : List Nat → Except String Datastructures.GitHubPushEvent)
        (cfg : Configure.Config) (req : Main.Request),
      262144 < Main.sumLen req.body_chunks →
      Main.route_post pp pq cfg req = (.json 400 "overflow", [])) ∧
    (∀ chunks : List (List Nat), Main.sumLen chunks ≤ 262144 →
      Main.readBody chunks = some chunks.flatten) ∧
    (∀ (pre : List (List Nat)) (chunk : List Nat) (rest : List (List Nat)),
      Main.sumLen pre ≤ 262144 →
      262144 < Main.sumLen pre + chunk.length →
      Main.readBody (pre ++ chunk :: rest) = none) := by
  refine ⟨?_, ?_, ?_⟩
  · intro pp pq cfg req h
    have hn : Main.readBody req.body_chunks = none :=
      readBodyAux_overflow req.body_chunks [] (by simp) (by simpa using h)
    simp [Main.route_post, hn]
  · intro chunks h
    have := readBodyAux_ok chunks [] (by simpa using h)
    simpa [Main.readBody] using this
  · intro pre chunk rest h1 h2
    exact readBodyAux_stops_at_chunk pre [] chunk rest (by simpa using h1)
      (by simpa using h2)

theorem c6_witness :
    Main.route_post parsePingFail parsePushA cfgC4 reqOverflow =
      (.json 400 "overflow", []) :=
  c6_overflow_bound.1 parsePingFail parsePushA cfgC4 reqOverflow (by
    have h : Main.sumLen reqOverflow.body_chunks = 262145 := by
      show Main.sumLen [List.replicate 262145 0] = 262145
      rw [Main.sumLen, List.map_cons, List.map_nil, List.length_replicate,
        List.sum_cons, List.sum_nil]
      omega
    omega)

/-- C4, amended: with a non-empty global secret and a signature header
present, the handler proceeds to event dispatch exactly when the header
equals, byte for byte, the lowercase signature string computed by the
handler from the global secret; any other header value, including an
uppercase hex rendering of the correct digest, is rejected 403 with reason
"Checksum error" (not "signature mismatch"). -/
theorem c4_signature_exact_match
    (pp : List Nat → Except String Datastructures.GitHubPingEvent)
    (pq : List Nat → Except String Datastructures.GitHubPushEvent)
    (cfg : Configure.Config) (req : Main.Request) (body : List Nat) (val : String)
    (h1 : Main.readBody req.body_chunks = some body)
    (h2 : cfg.server.secrets ≠ "")
    (h3 : req.signature_header = some val) :
    Main.route_post pp pq cfg req =
      if Main.expectedSignature cfg.server.secrets body = val then
        Main.handle_event pp pq req.event_header body
      else (.json 403 "Checksum error", []) := by
  simp [Main.route_post, h1, h2, h3]

set_option maxRecDepth 100000 in
/-- C4, counterexample: an uppercase hex header for the correct digest
(equal to the computed signature up to hex-digit case) is rejected, and
the rejection reason is "Checksum error", not "signature mismatch". -/
theorem c4_counterexample :
    strToLower hdrUpperC4 = Main.expectedSignature cfgC4.server.secrets bodyC4 ∧
    reqC4upper.signature_header = some hdrUpperC4 ∧
    Main.route_post parsePingFail parsePushA cfgC4 reqC4upper =
      (.json 403 "Checksum error", []) ∧
    "Checksum error" ≠ "signature mismatch" := by
  refine ⟨by decide, rfl, by decide, by decide⟩

theorem c4_witness :
    Main.route_post parsePingFail parsePushA cfgC4 reqC4lower =
      (if Main.expectedSignature cfgC4.server.secrets bodyC4 = hdrLowerC4 then
        Main.handle_event parsePingFail parsePushA reqC4lower.event_header bodyC4
      else (.json 403 "Checksum error", [])) :=
  c4_signature_exact_match parsePingFail parsePushA cfgC4 reqC4lower bodyC4
    hdrLowerC4 rfl (by decide) rfl

end Webhook
